import Mathlib

/-!
Verification development for the vdsm storage-domain coordination core:
the disk-lease engine (lib/vdsm/storage/disklease.py) and the copy-data
job/endpoint engine (lib/vdsm/storage/sdm/api/copy_data.py), shallowly
embedded in Lean. Python dynamic values, attribute lookup and exception
flow are made explicit; external collaborators (the sanlock primitive,
the in-process resource manager, storage-domain manifests) are modelled
as parameters or observable events.
-/

namespace Vdsm

/-! ### Python dynamic values and errors -/

/-- Python value stored under the key "gen" of the generation dict
`self._generation` in disklease.py: initialised to the string "0"
(line 48) and overwritten with an int by `update_generation` (line 118). -/
inductive PyVal where
  | pstr (s : String)
  | pint (n : Int)
  deriving DecidableEq, Repr

/-- Python exceptions that the embedded code can raise. `acquireLockFailure`
and `releaseLockFailure` embed se.AcquireLockFailure / se.ReleaseLockFailure;
`typeError` is the builtin TypeError raised by `+` on mixed int/str operands;
`attributeError` is the builtin AttributeError raised by reading an attribute
that was never assigned; `unsupportedOperation` embeds se.UnsupportedOperation;
`valueError` is the builtin ValueError; `operationError` stands for a failure
raised by the running qemu-img copy operation. -/
inductive PyErr where
  | typeError
  | attributeError (name : String)
  | acquireLockFailure (sd : String) (errno : Int) (msg : String)
  | releaseLockFailure (sd : String) (errno : Int)
  | unsupportedOperation (msg src_vol dst_vol : String)
  | valueError (msg : String)
  | operationError (msg : String)
  deriving DecidableEq, Repr

/-- Python binary `+` restricted to the values that occur here: str + str is
concatenation, int + int is addition, and a mixed int/str pair raises
TypeError (the exact semantics of CPython for these operand types). -/
def pyAdd : PyVal → PyVal → Except PyErr PyVal
  | .pstr a, .pstr b => .ok (.pstr (a ++ b))
  | .pint a, .pint b => .ok (.pint (a + b))
  | _, _ => .error .typeError

/-- Decimal digit accumulator for `pyIntOfString`. -/
def parseDigitsAux : List Char → Nat → Option Nat
  | [], acc => some acc
  | c :: cs, acc =>
      if c.isDigit then parseDigitsAux cs (acc * 10 + (c.toNat - 48)) else none

/-- Decimal integer parsing of a string (an executable stand-in for the
CPython decimal parsing behind `int(s)`: optional leading minus, then
decimal digits; anything else fails). The only string ever parsed in this
development is the initial generation literal "0". -/
def pyIntOfString (s : String) : Option Int :=
  match s.data with
  | [] => none
  | '-' :: cs =>
      if cs.isEmpty then none
      else (parseDigitsAux cs 0).map (fun n => -(n : Int))
  | cs => (parseDigitsAux cs 0).map (fun n => (n : Int))

/-- Python `int(x)` for the values that occur here: an int is returned as is,
a decimal string literal is parsed, any other string raises ValueError. -/
def pyInt : PyVal → Except PyErr Int
  | .pint n => .ok n
  | .pstr s =>
      match pyIntOfString s with
      | some n => .ok n
      | none => .error (.valueError "invalid literal for int")

/-- Python `str(x)` for an int value. -/
def pyStr (n : Int) : String := toString n

/-! ### The Lease record and the DiskLease object

`Lease = collections.namedtuple("Lease", "name, path, offset")`
(disklease.py line 14). -/

structure Lease where
  name : String
  path : String
  offset : Nat
  deriving DecidableEq, Repr

/-- Immutable fields of a DiskLease instance, set by `__init__`
(disklease.py lines 44-49): `self._lease`, `self._sd_id`, `self._host_id`.
The mutable fields (`self._generation`, `self._sanlock_fd`) live in
`DiskLeaseState` below. -/
structure DiskLeaseCfg where
  lease : Lease
  sd_id : String
  host_id : Nat
  deriving DecidableEq, Repr

/-- Mutable state of a DiskLease instance: the dict value
`self._generation["gen"]` and `self._sanlock_fd`. -/
structure DiskLeaseState where
  generation : PyVal
  sanlock_fd : Option Int
  deriving DecidableEq, Repr

/-- State of a fresh DiskLease: `self._generation = {"gen": "0"}` — the
counter starts as the STRING "0" — and `self._sanlock_fd = None`. -/
def DiskLease.initState : DiskLeaseState :=
  { generation := .pstr "0", sanlock_fd := none }

/-- Instance attribute names assigned by `DiskLease.__init__`
(disklease.py lines 45-49). Reading any other attribute name on the
instance raises AttributeError: in particular `self._sdUUID`, read by the
exception handlers of `acquire`, `release`, `set_lvb` and `get_lvb`
(lines 69, 80, 91, 100, 109), is NOT in this list. -/
def DiskLease.instanceAttrs : List String :=
  ["_lease", "_sd_id", "_host_id", "_generation", "_sanlock_fd"]

/-- Python attribute read of a string-valued attribute on a DiskLease
instance: defined names resolve (only `_sd_id` is ever read as the
storage-domain id), undefined names raise AttributeError. -/
def DiskLease.getattrStr (cfg : DiskLeaseCfg) (name : String) :
    Except PyErr String :=
  if name ∈ DiskLease.instanceAttrs then
    .ok (if name = "_sd_id" then cfg.sd_id else "")
  else
    .error (.attributeError name)

/-- Outcomes of the sanlock primitive calls made during one DiskLease
operation; an `Except Int` carries the errno of a SanlockException.
The primitive is an external collaborator (vdsm.storage.compat.sanlock),
so its outcomes are inputs of the model. -/
structure SanlockCalls where
  registerResult : Except Int Int
  acquireResult : Except Int Unit
  setLvbResult : Except Int Unit
  releaseResult : Except Int Unit
  deriving Repr

/-- Outcomes of a run in which every sanlock call succeeds (register
returns fd 7). -/
def SanlockCalls.ok : SanlockCalls :=
  { registerResult := .ok 7
    acquireResult := .ok ()
    setLvbResult := .ok ()
    releaseResult := .ok () }

/-- Observable storage-layer events emitted by the embedded code, used to
state which primitive effects happened and in which order. -/
inductive Ev where
  | sanlockRegister
  | sanlockAcquire (resource : String)
  | setLvbWrite (gen : PyVal)
  | sanlockRelease (resource : String)
  | rmAcquireResource (ns key : String)
  | rmReleaseResource (ns key : String)
  | guardedEnter
  | guardedExit
  | prepareSrc
  | prepareDst
  | teardownDst
  | teardownSrc
  | volOpEnter
  | convertStart (src dst srcFormat dstFormat : String) (bitmaps : Bool)
  | opRun
  | opAbort
  deriving DecidableEq, Repr

/-- Result of one DiskLease operation: the events that reached the
primitive before returning or raising, and either the successor state or
the Python exception raised. -/
abbrev DLResult := List Ev × Except PyErr DiskLeaseState

/-- Embeds `DiskLease.set_lvb` (disklease.py lines 93-100): forwards the
serialized generation dict to `sanlock.set_lvb`; on SanlockException the
handler raises `se.ReleaseLockFailure(self._sdUUID, e)`, whose first
argument reads the unassigned attribute `_sdUUID` and therefore raises
AttributeError before the ReleaseLockFailure is built. The event records
the generation value persisted in the lease value buffer (the source
serializes it as a JSON dict with single key "gen"). -/
def DiskLease.set_lvb (cfg : DiskLeaseCfg) (calls : SanlockCalls)
    (st : DiskLeaseState) (gen : PyVal) : DLResult :=
  match calls.setLvbResult with
  | .ok () => ([.setLvbWrite gen], .ok st)
  | .error errno =>
      match DiskLease.getattrStr cfg "_sdUUID" with
      | .ok sd => ([], .error (.releaseLockFailure sd errno))
      | .error e => ([], .error e)

/-- Embeds `DiskLease.acquire` (disklease.py lines 63-82):
`sanlock.register()` (on SanlockException the handler raises
AcquireLockFailure whose first argument reads `self._sdUUID`), then
`sanlock.acquire(...)` with lvb=True (same handler shape), then
`self.set_lvb(self._lease, json.dumps(self._generation))` persisting the
current generation. -/
def DiskLease.acquire (cfg : DiskLeaseCfg) (calls : SanlockCalls)
    (st : DiskLeaseState) : DLResult :=
  match calls.registerResult with
  | .error errno =>
      match DiskLease.getattrStr cfg "_sdUUID" with
      | .ok sd => ([], .error (.acquireLockFailure sd errno
          "Cannot register to sanlock"))
      | .error e => ([], .error e)
  | .ok fd =>
    let st := { st with sanlock_fd := some fd }
    match calls.acquireResult with
    | .error errno =>
        match DiskLease.getattrStr cfg "_sdUUID" with
        | .ok sd => ([.sanlockRegister], .error (.acquireLockFailure sd errno
            "Cannot acquire"))
        | .error e => ([.sanlockRegister], .error e)
    | .ok () =>
        match DiskLease.set_lvb cfg calls st st.generation with
        | (evs, .ok st) =>
            ([.sanlockRegister, .sanlockAcquire cfg.lease.name] ++ evs, .ok st)
        | (evs, .error e) =>
            ([.sanlockRegister, .sanlockAcquire cfg.lease.name] ++ evs,
              .error e)

/-- Embeds `DiskLease.release` (disklease.py lines 84-91):
`sanlock.release(...)`; on SanlockException the handler raises
ReleaseLockFailure whose first argument reads `self._sdUUID`. -/
def DiskLease.release (cfg : DiskLeaseCfg) (calls : SanlockCalls)
    (st : DiskLeaseState) : DLResult :=
  match calls.releaseResult with
  | .ok () => ([.sanlockRelease cfg.lease.name], .ok st)
  | .error errno =>
      match DiskLease.getattrStr cfg "_sdUUID" with
      | .ok sd => ([], .error (.releaseLockFailure sd errno))
      | .error e => ([], .error e)

/-- Embeds `DiskLease.update_generation` (disklease.py lines 116-119).
The log call on line 117 evaluates its arguments eagerly, in particular
the expression `self._generation["gen"] + str(value)`; when the stored
generation is an int (after any previous update) this is int + str and
raises TypeError before any state change. Then line 118 sets
`self._generation["gen"] = int(self._generation["gen"]) + value` and
line 119 persists it via `set_lvb`. -/
def DiskLease.update_generation (cfg : DiskLeaseCfg) (calls : SanlockCalls)
    (st : DiskLeaseState) (value : Int) : DLResult :=
  match pyAdd st.generation (.pstr (pyStr value)) with
  | .error e => ([], .error e)
  | .ok _ =>
      match pyInt st.generation with
      | .error e => ([], .error e)
      | .ok n =>
          let st := { st with generation := .pint (n + value) }
          DiskLease.set_lvb cfg calls st st.generation

/-! ### Sequences of DiskLease operations -/

/-- Operations a holder can perform on one DiskLease instance. -/
inductive DLOp where
  | acquireOp
  | updateOp (d : Int)
  | releaseOp
  deriving DecidableEq, Repr

/-- Dispatches one `DLOp` to the corresponding DiskLease method. -/
def DiskLease.runOp (cfg : DiskLeaseCfg) (calls : SanlockCalls)
    (st : DiskLeaseState) : DLOp → DLResult
  | .acquireOp => DiskLease.acquire cfg calls st
  | .updateOp d => DiskLease.update_generation cfg calls st d
  | .releaseOp => DiskLease.release cfg calls st

/-- Runs a sequence of DiskLease operations, accumulating the primitive
events; a raised exception stops the sequence (as an uncaught Python
exception would). -/
def DiskLease.runOps (cfg : DiskLeaseCfg) (calls : SanlockCalls) :
    List DLOp → DiskLeaseState → List Ev × Except PyErr DiskLeaseState
  | [], st => ([], .ok st)
  | op :: ops, st =>
      match DiskLease.runOp cfg calls st op with
      | (evs, .error e) => (evs, .error e)
      | (evs, .ok st2) =>
          let rest := DiskLease.runOps cfg calls ops st2
          (evs ++ rest.1, rest.2)

/-- Generation values persisted into the lease value buffer during a run,
in write order. -/
def lvbWrites (t : List Ev) : List PyVal :=
  t.filterMap fun e =>
    match e with
    | .setLvbWrite g => some g
    | _ => none

/-- Numeric reading of a persisted generation value. The only string the
source ever persists is the initial "0" (serialized from the dict set up
by `__init__`); every later write is an int. -/
def genValue : PyVal → Int
  | .pstr s => (pyIntOfString s).getD 0
  | .pint n => n

/-- Counts `sanlockAcquire` events for a resource name. -/
def acquireCount (t : List Ev) (resource : String) : Nat :=
  (t.filter fun e => e = .sanlockAcquire resource).length

/-- Counts `sanlockRelease` events for a resource name. -/
def releaseCount (t : List Ev) (resource : String) : Nat :=
  (t.filter fun e => e = .sanlockRelease resource).length

/-! ### Resource-manager locks and namespaces

The resource manager and the constants module are external collaborators
(vdsm.storage.resourceManager, vdsm.storage.constants); only the lock
descriptors and namespace names they produce matter here, so the
namespace constants are opaque distinct strings and `getNamespace` joins
its arguments with an underscore as rm.getNamespace does. -/

def STORAGE : String := "00_storage"

def IMAGE_NAMESPACE : String := "01_img"

def getNamespace (ns sd : String) : String := ns ++ "_" ++ sd

/-- Lock mode of the resource manager: rm.SHARED / rm.EXCLUSIVE. -/
inductive LockMode where
  | shared
  | exclusive
  deriving DecidableEq, Repr

/-- Entry of the guarded lock list of an endpoint: either an in-process
resource-manager lock `rm.Lock(ns, key, mode)` or a per-volume lease
`volume.VolumeLease(host_id, sd_id, img_id, vol_id)`. -/
inductive GuardedLock where
  | rmLock (ns key : String) (mode : LockMode)
  | volumeLease (host_id : Nat) (sd_id img_id vol_id : String)
  deriving DecidableEq, Repr

/-! ### Endpoints -/

/-- Parameters of a CopyDataDivEndpoint (copy_data.py lines 125-141):
identifies a volume by (sd_id, img_id, vol_id); `writable` is passed by
the Job (False for source, True for destination). -/
structure CopyDataDivEndpoint where
  sd_id : String
  img_id : String
  vol_id : String
  generation : Option Nat
  prepared : Bool
  host_id : Nat
  writable : Bool
  deriving DecidableEq, Repr

/-- Embeds `CopyDataDivEndpoint.locks` (copy_data.py lines 143-154): the
domain-level shared lock, then the image-level lock (exclusive when
writable, shared otherwise), then — only when writable and the produced
domain manifest reports `hasVolumeLeases()` — a VolumeLease appended
last. The manifest lookup `sdCache.produce_manifest(sd_id)` is external,
so its `hasVolumeLeases()` answer is a parameter. -/
def CopyDataDivEndpoint.locks (e : CopyDataDivEndpoint)
    (hasVolumeLeases : Bool) : List GuardedLock :=
  let img_ns := getNamespace IMAGE_NAMESPACE e.sd_id
  let mode := if e.writable then LockMode.exclusive else LockMode.shared
  let ret := [GuardedLock.rmLock STORAGE e.sd_id .shared,
              GuardedLock.rmLock img_ns e.img_id mode]
  if e.writable && hasVolumeLeases then
    ret ++ [.volumeLease e.host_id e.sd_id e.img_id e.vol_id]
  else
    ret

/-- Parameters of a CopyDataExternalEndpoint (copy_data.py lines
221-231): a device path and the (lease_sd_id, lease_id) pair naming the
disk lease used for generation tracking. -/
structure CopyDataExternalEndpoint where
  path : String
  lease_sd_id : String
  lease_id : String
  host_id : Nat
  deriving DecidableEq, Repr

/-- Embeds `CopyDataExternalEndpoint.locks` (copy_data.py lines 233-241):
the body that would return a DiskLease is commented out in the source and
the property returns the empty list. -/
def CopyDataExternalEndpoint.locks (_ : CopyDataExternalEndpoint) :
    List GuardedLock := []

/-- Embeds `CopyDataExternalEndpoint.volume_operation` (copy_data.py
lines 279-296), a @contextmanager generator with NO try/finally around
its yield. Entering the scope acquires the rm resource to look up the
lease info (the with-block exits before going on), builds a fresh
DiskLease and acquires it; then the generator yields to the with-body
(the copy operation). On normal return from the body the generator
resumes after the yield: `lease.update_generation(1)` then
`lease.release()`. When the body raises, Python throws the exception into
the generator at the yield point; with no handler around the yield it
propagates out of the generator, so the code after the yield — the
generation bump and the release — never runs. `info` is the external
`dom.lease_info(lease_id)` answer and `body` is the event trace and
outcome of the with-body. -/
def CopyDataExternalEndpoint.volume_operation (e : CopyDataExternalEndpoint)
    (info : Lease) (calls : SanlockCalls)
    (body : List Ev × Except PyErr Unit) : List Ev × Except PyErr Unit :=
  let cfg : DiskLeaseCfg :=
    { lease := info, sd_id := e.lease_sd_id, host_id := e.host_id }
  let pre := [Ev.rmAcquireResource STORAGE e.lease_sd_id,
              Ev.rmReleaseResource STORAGE e.lease_sd_id]
  match DiskLease.acquire cfg calls DiskLease.initState with
  | (evs, .error err) => (pre ++ evs, .error err)
  | (evs, .ok st) =>
      match body with
      | (bevs, .error err) => (pre ++ evs ++ bevs, .error err)
      | (bevs, .ok ()) =>
          match DiskLease.update_generation cfg calls st 1 with
          | (uevs, .error err) => (pre ++ evs ++ bevs ++ uevs, .error err)
          | (uevs, .ok st2) =>
              match DiskLease.release cfg calls st2 with
              | (revs, .error err) =>
                  (pre ++ evs ++ bevs ++ uevs ++ revs, .error err)
              | (revs, .ok _) =>
                  (pre ++ evs ++ bevs ++ uevs ++ revs, .ok ())

/-! ### Endpoint construction -/

/-- Kind of endpoint `_create_endpoint` constructs. -/
inductive EndpointChoice where
  | divEndpoint
  | externalEndpoint
  deriving DecidableEq, Repr

/-- Embeds `_create_endpoint` (copy_data.py lines 115-122): the tag
"div" selects CopyDataDivEndpoint, the tag "external" selects
CopyDataExternalEndpoint, and any other tag raises
`ValueError("Invalid or unsupported endpoint ...")`. Construction takes
no lock: locks are requested only later, by `Job._run` via
`guarded.context`. -/
def _create_endpoint (endpoint_type : String) : Except PyErr EndpointChoice :=
  if endpoint_type = "div" then .ok .divEndpoint
  else if endpoint_type = "external" then .ok .externalEndpoint
  else .error (.valueError "Invalid or unsupported endpoint")

/-! ### The copy-data Job -/

/-- Job status constants of the vdsm jobs module (external collaborator). -/
inductive JobStatus where
  | pending
  | running
  | aborted
  | failed
  | done
  deriving DecidableEq, Repr

/-- Constant qemuimg.FORMAT.RAW of the external qemuimg module. -/
def RAW_FORMAT : String := "raw"

/-- Capabilities of an endpoint that `Job._run` reads: the guarded lock
list, the device path, the intrinsic qemu format, and the
invalid-vm-conf-disk workaround flag. For a div endpoint the format and
the flag come from external volume metadata, so they are fields here;
for an external endpoint `qemu_format` is always "raw" and
`is_invalid_vm_conf_disk()` always False (copy_data.py lines 247-252). -/
structure EndpointView where
  locks : List GuardedLock
  path : String
  qemu_format : String
  is_invalid_vm_conf_disk : Bool
  deriving DecidableEq, Repr

/-- View of a CopyDataExternalEndpoint as seen by `Job._run`. -/
def CopyDataExternalEndpoint.view (e : CopyDataExternalEndpoint) :
    EndpointView :=
  { locks := e.locks
    path := e.path
    qemu_format := RAW_FORMAT
    is_invalid_vm_conf_disk := false }

/-- State of a copy_data Job read by `_run`, `_abort` and `progress`:
its status, the copy_bitmaps flag, the two endpoint views, and the
operation handle `self._operation`, which is None until
`qemuimg.convert` is called (copy_data.py lines 50-56). -/
structure Job where
  status : JobStatus
  copy_bitmaps : Bool
  source : EndpointView
  dest : EndpointView
  operation : Option Unit
  deriving DecidableEq, Repr

/-- Embeds `Job._validate_copy_bitmaps` (copy_data.py lines 66-74):
raises se.UnsupportedOperation exactly when the copy_bitmaps flag is set
and qemuimg.FORMAT.RAW is one of the two format arguments. -/
def Job._validate_copy_bitmaps (j : Job) (src_format dst_format : String) :
    Except PyErr Unit :=
  if j.copy_bitmaps && (src_format = RAW_FORMAT || dst_format = RAW_FORMAT)
  then
    .error (.unsupportedOperation
      "Cannot copy bitmaps from/to volumes with raw format"
      j.source.path j.dest.path)
  else
    .ok ()

/-- Embeds `Job._run` (copy_data.py lines 76-112). The guarded lock
scope and both prepare scopes are entered first; both are external
scoped-release constructs (vdsm.storage.guarded and the endpoint prepare
context managers) that release on every exit path, so their exit events
appear on every branch. At the pre-copy checkpoint an already-aborted
job returns without copying. The effective formats are both forced to
raw when the source reports an invalid vm conf disk; then
`_validate_copy_bitmaps` runs, and only after it passes is the
destination volume_operation scope entered and the convert operation
started and run. `volOp` is the destination volume_operation context
manager (a function from the with-body trace and outcome to the scope
trace and outcome) and `copyResult` is the outcome of
`self._operation.run()`. -/
def Job.run (j : Job)
    (volOp : List Ev × Except PyErr Unit → List Ev × Except PyErr Unit)
    (copyResult : Except PyErr Unit) : List Ev × Except PyErr Unit :=
  let enter := [Ev.guardedEnter, Ev.prepareSrc, Ev.prepareDst]
  let exits := [Ev.teardownDst, Ev.teardownSrc, Ev.guardedExit]
  if j.status = JobStatus.aborted then
    (enter ++ exits, .ok ())
  else
    let fmts :=
      if j.source.is_invalid_vm_conf_disk then (RAW_FORMAT, RAW_FORMAT)
      else (j.source.qemu_format, j.dest.qemu_format)
    match Job._validate_copy_bitmaps j fmts.1 fmts.2 with
    | .error e => (enter ++ exits, .error e)
    | .ok () =>
        let body := ([Ev.convertStart j.source.path j.dest.path
                        fmts.1 fmts.2 j.copy_bitmaps, Ev.opRun], copyResult)
        let scope := volOp body
        (enter ++ [Ev.volOpEnter] ++ scope.1 ++ exits, scope.2)

/-- Embeds `Job._abort` (copy_data.py lines 62-64): when
`self._operation` is None the truthiness test fails and nothing happens;
otherwise the running operation is asked to abort. The job object is
returned unchanged — `_abort` never reassigns `self._operation`. -/
def Job._abort (j : Job) : Job × List Ev × Except PyErr Unit :=
  match j.operation with
  | none => (j, [], .ok ())
  | some _ => (j, [Ev.opAbort], .ok ())

/-! ### Host liveness classification -/

/-- Host status constants (disklease.py lines 16-37). -/
def HOST_STATUS_UNAVAILABLE : String := "unavailable"

def HOST_STATUS_UNKNOWN : String := "unknown"

def HOST_STATUS_FREE : String := "free"

def HOST_STATUS_LIVE : String := "live"

def HOST_STATUS_FAIL : String := "fail"

def HOST_STATUS_DEAD : String := "dead"

/-- Modelled from the spec: the classifier mapping renewal telemetry to a
host status is not under src/ — only the HOST_STATUS constants and their
timing comments are (disklease.py lines 16-37); the classification
function itself lives in the external clusterlock module. Following the
spec sentence "Host status classification is a pure function of
(now − last_renewal) and primitive-error flag: under 80s live, 80-140s
fail, over 140s dead, no lease record free, primitive call failed
unavailable", the inputs are the primitive-error flag and the elapsed
seconds since the last renewal (`none` when no lease record exists for
the host id). -/
def hostStatus (primitiveFailed : Bool) (renewal : Option Nat) : String :=
  if primitiveFailed then HOST_STATUS_UNAVAILABLE
  else
    match renewal with
    | none => HOST_STATUS_FREE
    | some elapsed =>
        if elapsed < 80 then HOST_STATUS_LIVE
        else if elapsed ≤ 140 then HOST_STATUS_FAIL
        else HOST_STATUS_DEAD

/-! ### Concrete fixtures used by closed theorems and witnesses -/

/-- Concrete DiskLease configuration: an external lease named "lease1" on
storage domain "sd-1". -/
def cfgEx : DiskLeaseCfg :=
  { lease := { name := "lease1", path := "/dev/sd-1/leases", offset := 3145728 }
    sd_id := "sd-1"
    host_id := 1 }

/-- Concrete external endpoint writing to an attached rbd device. -/
def extEx : CopyDataExternalEndpoint :=
  { path := "/dev/rbd0", lease_sd_id := "sd-1", lease_id := "lease-uuid"
    host_id := 1 }

/-- Concrete lease-info answer of `dom.lease_info(lease_id)` for `extEx`. -/
def infoEx : Lease :=
  { name := "lease1", path := "/dev/sd-1/leases", offset := 3145728 }

/-- Sanlock outcomes in which `sanlock.register()` raises a
SanlockException with errno 19. -/
def registerFailCalls : SanlockCalls :=
  { SanlockCalls.ok with registerResult := .error 19 }

/-- Sanlock outcomes in which registration succeeds but
`sanlock.acquire(...)` raises a SanlockException with errno 22. -/
def acquireFailCalls : SanlockCalls :=
  { SanlockCalls.ok with acquireResult := .error 22 }

/-- Concrete job used by witnesses: pending, copy_bitmaps set, raw source
format, no operation handle yet. -/
def jobEx : Job :=
  { status := .pending
    copy_bitmaps := true
    source := { locks := [], path := "/src", qemu_format := RAW_FORMAT,
                is_invalid_vm_conf_disk := false }
    dest := { locks := [], path := "/dst", qemu_format := "qcow2",
              is_invalid_vm_conf_disk := false }
    operation := none }

/-! ### Claim C1 -/

/-- C1: the claim states that for a run whose destination is an
external-device endpoint, `volume_operation()` acquires the disk lease
before yielding to the copy, advances the generation by exactly 1 iff
the copy ran to the point of yielding, and releases the lease whether
the copy succeeded or raised. The code violates the last two parts: the
generator has no try/finally around its yield, so a copy failure skips
the post-yield generation bump and release. At the concrete failing
input — the copy body raising an operation error — the whole scope ends
with the lease still acquired (one sanlockAcquire, no sanlockRelease),
the only persisted generation value the initial 0 (no bump although the
yield was reached, as the opRun event shows), and the copy error
propagating. -/
theorem C1_lease_left_held_on_copy_failure :
    extEx.volume_operation infoEx SanlockCalls.ok
        ([Ev.opRun], .error (.operationError "copy failed")) =
      ([Ev.rmAcquireResource STORAGE "sd-1",
        Ev.rmReleaseResource STORAGE "sd-1",
        Ev.sanlockRegister,
        Ev.sanlockAcquire "lease1",
        Ev.setLvbWrite (.pstr "0"),
        Ev.opRun],
       .error (.operationError "copy failed")) ∧
    acquireCount (extEx.volume_operation infoEx SanlockCalls.ok
        ([Ev.opRun], .error (.operationError "copy failed"))).1 "lease1" = 1 ∧
    releaseCount (extEx.volume_operation infoEx SanlockCalls.ok
        ([Ev.opRun], .error (.operationError "copy failed"))).1 "lease1" = 0 := by
  refine ⟨rfl, rfl, rfl⟩

/-! ### Claim C3 -/

/-- C3: the claim states that every call in a sequence of
`update_generation` calls while the lease is held completes without
error and persists the running sum. The code violates this at the second
call: its log line evaluates `self._generation["gen"] + str(value)`
eagerly, and after the first update the stored generation is an int, so
int + str raises TypeError before any state change. Concretely, after
acquire (persisting the initial 0) the first `update_generation(1)`
persists 1 as claimed, but the second raises TypeError and persists
nothing. -/
theorem C3_second_update_raises_type_error :
    DiskLease.runOps cfgEx SanlockCalls.ok
        [.acquireOp, .updateOp 1, .updateOp 1] DiskLease.initState =
      ([Ev.sanlockRegister,
        Ev.sanlockAcquire "lease1",
        Ev.setLvbWrite (.pstr "0"),
        Ev.setLvbWrite (.pint 1)],
       .error .typeError) := by
  rfl

/-! ### Claim C4 -/

/-- C4: the claim states that when the primitive register() or acquire()
call fails, `DiskLease.acquire()` raises AcquireLockFailure carrying the
storage-domain id, the errno and a message, and no other kind of error.
The code violates this on both paths: the exception handlers build
`se.AcquireLockFailure(self._sdUUID, ...)`, but `_sdUUID` is never
assigned by `__init__` (which sets `_sd_id`), so evaluating the first
argument raises AttributeError instead. Concretely, a register failure
with errno 19 and an acquire failure with errno 22 both surface as
AttributeError for the name _sdUUID. -/
theorem C4_acquire_failure_raises_attribute_error :
    DiskLease.acquire cfgEx registerFailCalls DiskLease.initState =
      ([], .error (.attributeError "_sdUUID")) ∧
    DiskLease.acquire cfgEx acquireFailCalls DiskLease.initState =
      ([Ev.sanlockRegister], .error (.attributeError "_sdUUID")) := by
  refine ⟨rfl, rfl⟩

/-! ### Claim C5 -/

/-- C5 counterexample: the claim states that endpoint_type "volume"
constructs an internal-volume endpoint; in the code the internal-volume
tag is "div", so "volume" falls through to the invalid-endpoint branch
and raises ValueError. -/
theorem C5_volume_tag_is_rejected :
    _create_endpoint "volume" =
      .error (.valueError "Invalid or unsupported endpoint") := by
  rfl

/-- C5 amended: endpoint_type "div" (not "volume") constructs the
internal-volume endpoint, "external" constructs the external-device
endpoint, and any other endpoint_type fails immediately with ValueError;
construction takes no lock (locks are only requested later, inside
`Job.run`). -/
theorem C5_amended_endpoint_dispatch :
    _create_endpoint "div" = .ok .divEndpoint ∧
    _create_endpoint "external" = .ok .externalEndpoint ∧
    ∀ s : String, s ≠ "div" → s ≠ "external" →
      _create_endpoint s = .error (.valueError "Invalid or unsupported endpoint") := by
  refine ⟨rfl, rfl, fun s h1 h2 => ?_⟩
  simp [_create_endpoint, h1, h2]

/-- C5 witness: the amended dispatch theorem applied at the concrete tag
"volume", discharging both hypotheses. -/
theorem C5_amended_endpoint_dispatch_witness :
    _create_endpoint "volume" =
      .error (.valueError "Invalid or unsupported endpoint") :=
  C5_amended_endpoint_dispatch.2.2 "volume" (by decide) (by decide)

/-! ### Claim C6 -/

/-- C6: the locks property of an internal-volume endpoint returns, in
this fixed order: the storage-domain-level lock in shared mode first,
then the image-level lock (exclusive when the endpoint is writable,
shared otherwise), and last a per-volume lease, present exactly when the
endpoint is writable and the storage domain uses per-volume leases. -/
theorem C6_div_endpoint_lock_order (e : CopyDataDivEndpoint) (hvl : Bool) :
    (e.locks hvl).take 2 =
      [GuardedLock.rmLock STORAGE e.sd_id .shared,
       GuardedLock.rmLock (getNamespace IMAGE_NAMESPACE e.sd_id) e.img_id
         (if e.writable then .exclusive else .shared)] ∧
    ((e.locks hvl).drop 2 =
        [GuardedLock.volumeLease e.host_id e.sd_id e.img_id e.vol_id] ↔
      e.writable = true ∧ hvl = true) ∧
    ((e.locks hvl).drop 2 = [] ∨
      (e.locks hvl).drop 2 =
        [GuardedLock.volumeLease e.host_id e.sd_id e.img_id e.vol_id]) := by
  cases hw : e.writable <;> cases hvl <;>
    simp [CopyDataDivEndpoint.locks, hw]

/-! ### Claim C9 -/

/-- C9: an external-device endpoint contributes no lock to the guarded
scope — its locks property is the empty list — and its disk lease is
acquired only inside the volume_operation scope: the scope trace starts
with the resource-manager lookup, the sanlock registration, the
acquisition of the named lease, and the initial generation write, before
any body event. -/
theorem C9_external_endpoint_no_locks (e : CopyDataExternalEndpoint)
    (info : Lease) (body : List Ev × Except PyErr Unit) :
    e.locks = [] ∧
    ∃ rest, (e.volume_operation info SanlockCalls.ok body).1 =
      [Ev.rmAcquireResource STORAGE e.lease_sd_id,
       Ev.rmReleaseResource STORAGE e.lease_sd_id,
       Ev.sanlockRegister,
       Ev.sanlockAcquire info.name,
       Ev.setLvbWrite (.pstr "0")] ++ rest := by
  refine ⟨rfl, ?_⟩
  obtain ⟨bevs, bres⟩ := body
  cases bres with
  | error err => exact ⟨bevs, rfl⟩
  | ok u =>
      cases u
      refine ⟨bevs ++ [Ev.setLvbWrite (.pint 1), Ev.sanlockRelease info.name], ?_⟩
      simp [CopyDataExternalEndpoint.volume_operation, DiskLease.acquire,
        DiskLease.set_lvb, DiskLease.update_generation, DiskLease.release,
        SanlockCalls.ok, DiskLease.initState, pyAdd, pyInt, pyIntOfString,
        parseDigitsAux, pyStr]

/-! ### Claim C10 -/

/-- C10: calling abort on a job whose operation handle is still None
raises no error, performs no operation-level cancellation call, and
leaves the handle None. -/
theorem C10_abort_before_operation_is_noop (j : Job)
    (h : j.operation = none) :
    Job._abort j = (j, [], .ok ()) ∧ (Job._abort j).1.operation = none := by
  refine ⟨?_, ?_⟩ <;> simp [Job._abort, h]

/-- C10 witness: the abort theorem applied to the concrete pending job
with no operation handle. -/
theorem C10_abort_before_operation_is_noop_witness :
    Job._abort jobEx = (jobEx, [], .ok ()) ∧
    (Job._abort jobEx).1.operation = none :=
  C10_abort_before_operation_is_noop jobEx rfl

/-! ### Claim C2 -/

/-- C2: for a run that is not already aborted at the pre-copy
checkpoint, the copy is rejected with the UnsupportedOperation error —
and then the destination volume_operation scope is never entered — if
and only if the copy_bitmaps flag is set and one of the effective
formats is raw, the effective formats being both forced to raw when the
source reports an invalid vm conf disk; moreover on rejection the
convert operation is never started. -/
theorem C2_bitmap_copy_rejection (j : Job)
    (volOp : List Ev × Except PyErr Unit → List Ev × Except PyErr Unit)
    (copyResult : Except PyErr Unit)
    (h : j.status ≠ JobStatus.aborted) :
    ((Job.run j volOp copyResult).2 =
        .error (.unsupportedOperation
          "Cannot copy bitmaps from/to volumes with raw format"
          j.source.path j.dest.path) ∧
      Ev.volOpEnter ∉ (Job.run j volOp copyResult).1 ↔
      j.copy_bitmaps = true ∧
        ((if j.source.is_invalid_vm_conf_disk then RAW_FORMAT
          else j.source.qemu_format) = RAW_FORMAT ∨
         (if j.source.is_invalid_vm_conf_disk then RAW_FORMAT
          else j.dest.qemu_format) = RAW_FORMAT)) ∧
    (j.copy_bitmaps = true ∧
        ((if j.source.is_invalid_vm_conf_disk then RAW_FORMAT
          else j.source.qemu_format) = RAW_FORMAT ∨
         (if j.source.is_invalid_vm_conf_disk then RAW_FORMAT
          else j.dest.qemu_format) = RAW_FORMAT) →
      ∀ s d sf df b, Ev.convertStart s d sf df b ∉ (Job.run j volOp copyResult).1) := by
  rcases Bool.eq_false_or_eq_true j.source.is_invalid_vm_conf_disk with hinv | hinv <;>
    rcases Bool.eq_false_or_eq_true j.copy_bitmaps with hb | hb <;>
    by_cases hs : j.source.qemu_format = RAW_FORMAT <;>
    by_cases hd2 : j.dest.qemu_format = RAW_FORMAT <;>
    simp [Job.run, Job._validate_copy_bitmaps, h, hinv, hb, hs, hd2]

/-- C2 witness: the rejection theorem applied to the concrete pending
job with copy_bitmaps set and a raw source format: the run ends with the
UnsupportedOperation error and never enters the destination
volume_operation scope. -/
theorem C2_bitmap_copy_rejection_witness :
    (Job.run jobEx id (.ok ())).2 =
      .error (.unsupportedOperation
        "Cannot copy bitmaps from/to volumes with raw format" "/src" "/dst") ∧
    Ev.volOpEnter ∉ (Job.run jobEx id (.ok ())).1 :=
  (C2_bitmap_copy_rejection jobEx id (.ok ()) (by decide)).1.mpr (by decide)

/-! ### Claim C8 -/

/-- C8, with the classifier modelled from the spec (the classifying code
is not under src/, only the HOST_STATUS constants are): host status is a
pure function of the elapsed time since the last renewal and the
primitive-error flag; a failed primitive call yields unavailable, no
lease record yields free, elapsed under 80 seconds yields live, elapsed
from 80 to 140 seconds yields fail, elapsed over 140 seconds yields
dead, and both boundaries (80 and 140) land on the fail side. -/
theorem C8_host_status_classification (e : Nat) (r : Option Nat) :
    hostStatus true r = HOST_STATUS_UNAVAILABLE ∧
    hostStatus false none = HOST_STATUS_FREE ∧
    (hostStatus false (some e) = HOST_STATUS_LIVE ↔ e < 80) ∧
    (hostStatus false (some e) = HOST_STATUS_FAIL ↔ 80 ≤ e ∧ e ≤ 140) ∧
    (hostStatus false (some e) = HOST_STATUS_DEAD ↔ 140 < e) ∧
    hostStatus false (some 80) = HOST_STATUS_FAIL ∧
    hostStatus false (some 140) = HOST_STATUS_FAIL := by
  refine ⟨rfl, rfl, ?_, ?_, ?_, by rfl, by rfl⟩ <;>
  · simp only [hostStatus, HOST_STATUS_LIVE, HOST_STATUS_FAIL,
      HOST_STATUS_DEAD, HOST_STATUS_FREE, HOST_STATUS_UNAVAILABLE,
      if_false, Bool.false_eq_true]
    split_ifs with h1 h2 <;> simp_all <;> omega

/-! ### Claim C7 -/

/-- C7 counterexample: the claim states that no DiskLease operation ever
makes the persisted generation smaller than a previously persisted
value; but update_generation applies an arbitrary signed delta, so after
acquire (persisting 0) a single `update_generation(-1)` persists -1,
strictly below the previously persisted 0. -/
theorem C7_negative_delta_decreases_generation :
    (lvbWrites (DiskLease.runOps cfgEx SanlockCalls.ok
        [.acquireOp, .updateOp (-1)] DiskLease.initState).1).map genValue =
      [0, -1] ∧ (-1 : Int) < 0 :=
  ⟨rfl, by decide⟩

/-- Helper for the amended C7: running any sequence of DiskLease
operations (with the primitive succeeding, i.e. while the lease is held)
whose update deltas are all non-negative keeps the persisted generation
values non-decreasing, starting from the current in-memory value. -/
theorem runOps_writes_chain (cfg : DiskLeaseCfg) (ops : List DLOp) :
    ∀ st : DiskLeaseState,
      (∀ d, DLOp.updateOp d ∈ ops → 0 ≤ d) →
      List.Chain' (· ≤ ·)
        (genValue st.generation ::
          (lvbWrites (DiskLease.runOps cfg SanlockCalls.ok ops st).1).map
            genValue) := by
  induction ops with
  | nil => intro st _; simp [DiskLease.runOps, lvbWrites]
  | cons op ops ih =>
    intro st h
    have h2 : ∀ d, DLOp.updateOp d ∈ ops → 0 ≤ d :=
      fun d hd => h d (List.mem_cons_of_mem _ hd)
    cases op with
    | acquireOp =>
        simp only [DiskLease.runOps, DiskLease.runOp, DiskLease.acquire,
          DiskLease.set_lvb, SanlockCalls.ok]
        simp only [lvbWrites, List.filterMap_append, List.filterMap_cons,
          List.filterMap_nil, List.map_append, List.map_cons, List.map_nil]
        simp only [List.nil_append, List.cons_append, List.chain'_cons]
        exact ⟨le_refl _, ih { st with sanlock_fd := some 7 } h2⟩
    | updateOp d =>
        have hd : 0 ≤ d := h d (List.mem_cons_self _ _)
        simp only [DiskLease.runOps, DiskLease.runOp,
          DiskLease.update_generation]
        cases hg : st.generation with
        | pstr s =>
            simp only [pyAdd]
            cases hp : pyIntOfString s with
            | none => simp [pyInt, hp, lvbWrites]
            | some n =>
                simp only [pyInt, hp, DiskLease.set_lvb, SanlockCalls.ok]
                simp only [lvbWrites, List.filterMap_append,
                  List.filterMap_cons, List.filterMap_nil, List.map_append,
                  List.map_cons, List.map_nil, List.nil_append,
                  List.cons_append, List.chain'_cons]
                constructor
                · simp only [genValue, hp, Option.getD_some]
                  omega
                · have := ih { st with generation := .pint (n + d) } h2
                  simpa [genValue, SanlockCalls.ok] using this
        | pint n =>
            simp only [pyAdd, pyInt, DiskLease.set_lvb, SanlockCalls.ok]
            simp only [lvbWrites, List.filterMap_append, List.filterMap_cons,
              List.filterMap_nil, List.map_append, List.map_cons,
              List.map_nil, List.nil_append, List.cons_append,
              List.chain'_cons]
            simp [lvbWrites]
    | releaseOp =>
        simp only [DiskLease.runOps, DiskLease.runOp, DiskLease.release,
          SanlockCalls.ok]
        simp only [lvbWrites, List.filterMap_append, List.filterMap_cons,
          List.filterMap_nil, List.map_append, List.map_cons, List.map_nil,
          List.nil_append, List.cons_append]
        exact ih st h2

/-- C7 amended: the generation counter starts at 0 at construction, and
provided every delta passed to update_generation is non-negative (as at
the only call site in the repository, which passes 1), no DiskLease
operation — acquire, update_generation or release — ever makes the
persisted generation smaller than a previously persisted value. -/
theorem C7_amended_generation_monotone (cfg : DiskLeaseCfg) (ops : List DLOp)
    (h : ∀ d, DLOp.updateOp d ∈ ops → 0 ≤ d) :
    genValue DiskLease.initState.generation = 0 ∧
    List.Chain' (· ≤ ·)
      ((lvbWrites (DiskLease.runOps cfg SanlockCalls.ok ops
          DiskLease.initState).1).map genValue) :=
  ⟨rfl, (runOps_writes_chain cfg ops DiskLease.initState h).tail⟩

/-- C7 witness: the amended monotonicity theorem applied to the concrete
lease configuration and the operation sequence of a successful external
copy — acquire, bump by 1, release. -/
theorem C7_amended_generation_monotone_witness :
    genValue DiskLease.initState.generation = 0 ∧
    List.Chain' (· ≤ ·)
      ((lvbWrites (DiskLease.runOps cfgEx SanlockCalls.ok
          [.acquireOp, .updateOp 1, .releaseOp]
          DiskLease.initState).1).map genValue) :=
  C7_amended_generation_monotone cfgEx [.acquireOp, .updateOp 1, .releaseOp]
    (by intro d hd; simp at hd; omega)

end Vdsm
